import Mathlib

/-!
Shallow embedding of the core of the Travel-Planner agentic workflow
(Python sources under `src/`), together with theorems settling the claims
about it.  Each Python function relevant to a claim is translated into an
executable Lean definition; oracle (LLM) outputs and external API outcomes
are passed in as explicit parameters.  Machine integers are modelled as
`Nat`/`Int`; Python floats that are only carried around (scores, budgets)
are modelled as `ℚ`; Python `None` and optional dict keys are modelled as
`Option`.
-/

namespace TravelPlanner

/-! ## Python string helpers (str.lower, str.strip, substring test) -/

/-- ASCII model of Python `\s` (whitespace) characters. -/
def isPySpace (c : Char) : Bool :=
  c == ' ' || c == '\t' || c == '\n' || c == '\r' || c == '\x0b' || c == '\x0c'

/-- Model of Python `str.lower()` (character-wise lowering). -/
def pyLower (s : String) : String := String.mk (s.data.map Char.toLower)

/-- Model of Python `str.strip()`: drop leading and trailing whitespace. -/
def pyStrip (s : String) : String :=
  String.mk (((s.data.dropWhile isPySpace).reverse.dropWhile isPySpace).reverse)

/-- Whether the list `hay` starts with the list `needle`. -/
def listStartsWith : List Char → List Char → Bool
  | _, [] => true
  | [], _ :: _ => false
  | a :: as, b :: bs => a == b && listStartsWith as bs

/-- Model of Python `needle in hay` for strings (contiguous substring test). -/
def listContainsSub : List Char → List Char → Bool
  | hay, needle =>
    listStartsWith hay needle ||
      match hay with
      | [] => false
      | _ :: t => listContainsSub t needle

/-- Substring test on `String`, mirroring Python `in`. -/
def pyContains (hay needle : String) : Bool := listContainsSub hay.data needle.data

/-! ## Transport cache TTL selection (`src/cache/transport_cache.py`) -/

/-- `TRANSPORT_CACHE_TTL = 14400` (4 hours), the standard transport price TTL. -/
def TRANSPORT_CACHE_TTL : Nat := 14400

/-- `DYNAMIC_ROUTE_TTL = 7200` (2 hours), the TTL for high-frequency routes. -/
def DYNAMIC_ROUTE_TTL : Nat := 7200

/-- The curated set `high_freq_routes` from `is_high_frequency_route`,
listed exactly as in the source (both orientations of each pair). -/
def high_freq_routes : List (String × String) :=
  [("delhi", "mumbai"), ("mumbai", "delhi"),
   ("delhi", "bangalore"), ("bangalore", "delhi"),
   ("delhi", "bengaluru"), ("bengaluru", "delhi"),
   ("mumbai", "bangalore"), ("bangalore", "mumbai"),
   ("mumbai", "bengaluru"), ("bengaluru", "mumbai"),
   ("mumbai", "goa"), ("goa", "mumbai"),
   ("delhi", "kolkata"), ("kolkata", "delhi"),
   ("delhi", "chennai"), ("chennai", "delhi"),
   ("mumbai", "chennai"), ("chennai", "mumbai"),
   ("new york", "london"), ("london", "new york"),
   ("tokyo", "osaka"), ("osaka", "tokyo"),
   ("singapore", "kuala lumpur"), ("kuala lumpur", "singapore"),
   ("hong kong", "singapore"), ("singapore", "hong kong"),
   ("dubai", "mumbai"), ("mumbai", "dubai"),
   ("dubai", "delhi"), ("delhi", "dubai")]

/-- Normalization applied to each location: `.lower().strip()`. -/
def normalizeLocation (s : String) : String := pyStrip (pyLower s)

/-- `is_high_frequency_route(from_location, to_location)`. -/
def is_high_frequency_route (from_location to_location : String) : Bool :=
  decide ((normalizeLocation from_location, normalizeLocation to_location) ∈ high_freq_routes)

/-- `get_transport_cache_ttl(from_location, to_location)`. -/
def get_transport_cache_ttl (from_location to_location : String) : Nat :=
  if is_high_frequency_route from_location to_location then DYNAMIC_ROUTE_TTL
  else TRANSPORT_CACHE_TTL

/-! ## Critic agent post-LLM logic (`src/agents/critic.py`) -/

/-- `IssueSeverity` enum from `src/models/agent_outputs.py`. -/
inductive IssueSeverity where
  | low
  | medium
  | high
  | critical
deriving DecidableEq, Repr

/-- The `.value` string of an `IssueSeverity` member. -/
def IssueSeverity.value : IssueSeverity → String
  | .low => "low"
  | .medium => "medium"
  | .high => "high"
  | .critical => "critical"

/-- `ValidationIssue` pydantic model. -/
structure ValidationIssue where
  category : String
  description : String
  severity : IssueSeverity
  affected_days : List Int := []
  affected_cities : List String := []
  suggested_fix : Option String := none
deriving DecidableEq, Repr

/-- `CriticOutput` pydantic model (the oracle's structured validation answer). -/
structure CriticOutput where
  is_valid : Bool
  overall_score : ℚ
  issues : List ValidationIssue
  requires_replanning : Bool
  replan_focus : Option String := none
  replan_instructions : Option String := none
  strengths : List String := []
  final_recommendations : List String := []
deriving DecidableEq, Repr

/-- The dict form of a `ValidationIssue` placed into `validation_result.issues`. -/
structure IssueDict where
  category : String
  description : String
  severity : String
  affected_days : List Int
  affected_cities : List String
  suggested_fix : Option String
deriving DecidableEq, Repr

/-- Conversion of an issue into its state-update dict, as in `CriticAgent.run`. -/
def issueToDict (i : ValidationIssue) : IssueDict :=
  { category := i.category
    description := i.description
    severity := i.severity.value
    affected_days := i.affected_days
    affected_cities := i.affected_cities
    suggested_fix := i.suggested_fix }

/-- The `validation_result` dict built by `CriticAgent.run`. -/
structure ValidationResultDict where
  is_valid : Bool
  overall_score : ℚ
  issues : List IssueDict
  requires_replanning : Bool
  strengths : List String
  final_recommendations : List String
deriving DecidableEq, Repr

/-- The synthetic issue appended when the iteration cap is hit. -/
def capIssue (max_iterations : Nat) : ValidationIssue :=
  { category := "process"
    description := "Max re-planning iterations (" ++ toString max_iterations ++
      ") reached. Approving with known issues."
    severity := IssueSeverity.medium }

/-- The in-place mutation of `result` performed by `CriticAgent.run` when
`iteration >= max_iterations and result.requires_replanning`. -/
def criticPost (iteration max_iterations : Nat) (result : CriticOutput) : CriticOutput :=
  if max_iterations ≤ iteration ∧ result.requires_replanning then
    { result with
        is_valid := true
        requires_replanning := false
        issues := result.issues ++ [capIssue max_iterations] }
  else result

/-- Build of the `validation_result` dict from the (possibly mutated) result. -/
def buildValidationResult (r : CriticOutput) : ValidationResultDict :=
  { is_valid := r.is_valid
    overall_score := r.overall_score
    issues := r.issues.map issueToDict
    requires_replanning := r.requires_replanning
    strengths := r.strengths
    final_recommendations := r.final_recommendations }

/-- Python truthiness of an `Option String` (None and empty string are falsy). -/
def optStrTruthy : Option String → Bool
  | none => false
  | some s => s ≠ ""

/-- The `feedback_parts` list assembled when re-planning is required. -/
def criticFeedbackParts (r : CriticOutput) : List String :=
  (match r.replan_focus with
   | some f => if f ≠ "" then ["Focus area: " ++ f] else []
   | none => []) ++
  (match r.replan_instructions with
   | some f => if f ≠ "" then ["Instructions: " ++ f] else []
   | none => []) ++
  (let critical_issues := r.issues.filter
      (fun i => i.severity = IssueSeverity.critical ∨ i.severity = IssueSeverity.high)
   if critical_issues ≠ [] then
     "\nCritical issues to address:" ::
       (critical_issues.map (fun issue =>
         ["- [" ++ issue.severity.value.toUpper ++ "] " ++ issue.description] ++
           (match issue.suggested_fix with
            | some fix => if fix ≠ "" then ["  Suggestion: " ++ fix] else []
            | none => []))).flatten
   else [])

/-- The partial state update returned by the critic node.  `critic_feedback = none`
models the Python value `None`; `iteration_count = none` models the key being
absent from the update (so the field keeps its prior value). -/
structure CriticUpdate where
  validation_result : ValidationResultDict
  critic_feedback : Option String
  iteration_count : Option Nat
deriving DecidableEq, Repr

/-- `CriticAgent.run` after the oracle call: cap handling, dict build, feedback
and iteration increment. -/
def criticRun (iteration max_iterations : Nat) (result : CriticOutput) : CriticUpdate :=
  let r := criticPost iteration max_iterations result
  { validation_result := buildValidationResult r
    critic_feedback :=
      if r.requires_replanning then
        some (String.intercalate "\n" (criticFeedbackParts r))
      else none
    iteration_count := if r.requires_replanning then some (iteration + 1) else none }

/-- One critic-node execution as it acts on `iteration_count` (the only field
of the claim's interest): the state keeps its value unless the update carries
the key. -/
def criticIterStep (max_iterations : Nat) (iteration : Nat) (result : CriticOutput) : Nat :=
  (criticRun iteration max_iterations result).iteration_count.getD iteration

/-! ## Workflow graph structure (`src/graph/workflow.py`, `src/graph/edges.py`) -/

/-- Target of an edge: another node or the graph's `END` sentinel. -/
inductive GraphTarget where
  | node (name : String)
  | endOfGraph
deriving DecidableEq, Repr

/-- The slice of the graph state read by the conditional-edge predicates.
`clarification_needed = none` models the Python value `None`;
`clarification_answers` is the answers dict (falsy iff `None` or empty). -/
structure EdgeState where
  clarification_needed : Option Bool
  clarification_answers : Option (List (String × String))
  validation_result : Option ValidationResultDict
deriving DecidableEq, Repr

/-- Python truthiness of the answers dict: `None` and the empty dict are falsy. -/
def answersTruthy : Option (List (String × String)) → Bool
  | none => false
  | some l => l ≠ []

/-- `needs_clarification(state)` from `src/graph/edges.py`. -/
def needs_clarification (state : EdgeState) : String :=
  if state.clarification_needed.getD false ∧ answersTruthy state.clarification_answers = false then
    "wait_for_answers"
  else "proceed_to_planner"

/-- `should_replan(state)` from `src/graph/edges.py`. -/
def should_replan (state : EdgeState) : String :=
  if ((state.validation_result.map (fun v => v.requires_replanning)).getD false) then "replan"
  else "finalize"

/-- A conditional edge: source node, predicate, and branch-label mapping. -/
structure CondEdge where
  source : String
  pred : EdgeState → String
  branches : List (String × GraphTarget)

/-- A workflow graph: node table, entry point, static edges, conditional edges. -/
structure WorkflowGraph where
  nodes : List String
  entry : String
  edges : List (String × GraphTarget)
  condEdges : List CondEdge

/-- The travel-planner graph exactly as wired in `create_travel_graph`. -/
def travelGraph : WorkflowGraph :=
  { nodes := ["clarification", "process_answers", "planner", "geography", "research",
              "food_culture", "transport_budget", "critic", "finalize"]
    entry := "clarification"
    edges := [("process_answers", GraphTarget.node "planner"),
              ("planner", GraphTarget.node "geography"),
              ("geography", GraphTarget.node "research"),
              ("research", GraphTarget.node "food_culture"),
              ("food_culture", GraphTarget.node "transport_budget"),
              ("transport_budget", GraphTarget.node "critic"),
              ("finalize", GraphTarget.endOfGraph)]
    condEdges := [{ source := "clarification"
                    pred := needs_clarification
                    branches := [("wait_for_answers", GraphTarget.endOfGraph),
                                 ("proceed_to_planner", GraphTarget.node "planner")] },
                  { source := "critic"
                    pred := should_replan
                    branches := [("replan", GraphTarget.node "planner"),
                                 ("finalize", GraphTarget.node "finalize")] }] }

/-- Resolve a branch label in a conditional edge's mapping. -/
def condLookup (branches : List (String × GraphTarget)) (label : String) : Option GraphTarget :=
  (branches.find? (fun b => b.1 == label)).map (fun b => b.2)

/-- The target of the static edge out of a node, if any. -/
def staticNext (g : WorkflowGraph) (name : String) : Option GraphTarget :=
  (g.edges.find? (fun e => e.1 == name)).map (fun e => e.2)

/-- The successor of a node under the executor: a conditional edge dispatches
on its predicate over the just-merged state, otherwise the static edge applies. -/
def successorOf (g : WorkflowGraph) (name : String) (state : EdgeState) : Option GraphTarget :=
  match g.condEdges.find? (fun ce => ce.source == name) with
  | some ce => condLookup ce.branches (ce.pred state)
  | none => staticNext g name

/-! ## Geography allocation rewrite (`src/agents/geography.py`) -/

/-- `CityAllocation` pydantic model / `city_allocations` entry. -/
structure CityAllocation where
  city : String
  country : String
  days : Nat
  visit_order : Nat
  highlights : List String := []
  reasoning : String := ""
deriving DecidableEq, Repr

/-- Lookup in the dict `{c["city"]: c for c in city_allocations}`: a Python dict
comprehension keeps the last entry for a repeated key. -/
def cityMapFind (allocs : List CityAllocation) (name : String) : Option CityAllocation :=
  (allocs.filter (fun c => c.city == name)).getLast?

/-- The loop `for i, city_name in enumerate(result.optimized_order, 1)` of
`GeographyAgent.run`: names with a matching planned city yield a copy of that
allocation with `visit_order := i`; other names are skipped but still advance
the 1-based counter. -/
def reorderAllocations (allocs : List CityAllocation) : Nat → List String → List CityAllocation
  | _, [] => []
  | i, name :: rest =>
    match cityMapFind allocs name with
    | some a => { a with visit_order := i } :: reorderAllocations allocs (i + 1) rest
    | none => reorderAllocations allocs (i + 1) rest

/-- `updated_allocations` as built by `GeographyAgent.run` when `route_changed`. -/
def updated_allocations (allocs : List CityAllocation) (optimized_order : List String) :
    List CityAllocation :=
  reorderAllocations allocs 1 optimized_order

/-- The `city_allocations` entry of the geography state update: present only when
`route_changed` and the rewritten list is non-empty (Python truthiness of the
list guards `state_update["city_allocations"]`). -/
def geographyAllocationsUpdate (route_changed : Bool) (allocs : List CityAllocation)
    (optimized_order : List String) : Option (List CityAllocation) :=
  if route_changed then
    let u := updated_allocations allocs optimized_order
    if u ≠ [] then some u else none
  else none

/-! ## Research worker (`src/agents/research.py`, `ResearchAgent.run`)

The per-city coroutine `research_city` is modelled as a pure function of the
outcomes of its external calls: the Places-API results (gathered with
`return_exceptions=True`, so an exception arrives as a value), the oracle's
structuring answer, and the oracle fallback answers.  The estimated duration is
carried as an `Option Int` (the finalizer applies `int(...)` with default 2 to
it; its exact value never matters to any claim proved here). -/

/-- An attraction record as carried in the `attractions` state list. -/
structure Attraction where
  name : String
  city : String
  description : String := ""
  category : String := "attraction"
  estimated_duration_hours : Option Int := none
deriving DecidableEq, Repr

/-- A hotel record (only identity matters to the claims). -/
structure Hotel where
  name : String
  city : String
deriving DecidableEq, Repr

/-- Raw entry of the Places-API attraction payload. -/
structure RawPlace where
  name : String
deriving DecidableEq, Repr

/-- Outcome of one Places-API call as seen by `research_city`:
`exception` models `isinstance(result, Exception)`, `apiError` models a JSON
body with a truthy `error` field, `success` carries the parsed payload. -/
inductive ApiOutcome (α : Type) where
  | exception (msg : String)
  | apiError (msg : String)
  | success (data : α)
deriving DecidableEq, Repr

/-- Whether an outcome takes one of the two failure branches. -/
def ApiOutcome.failed {α : Type} : ApiOutcome α → Bool
  | .exception _ => true
  | .apiError _ => true
  | .success _ => false

/-- The oracle's answer to `_structure_attractions`. -/
structure StructuredResearch where
  attractions_found : List Attraction
  sources_browsed : List String
deriving DecidableEq, Repr

/-- The source entry recorded when the attractions fallback is used. -/
def fallbackAttractionsSource (city : String) : String :=
  "LLM Knowledge Base: " ++ city ++ " attractions (API unavailable)"

/-- The source entry recorded when the hotels fallback is used. -/
def fallbackHotelsSource (city : String) : String :=
  "LLM Knowledge Base: " ++ city ++ " hotels (API unavailable)"

/-- The source entry recorded on a successful attractions API call. -/
def placesAttractionsSource (city : String) : String :=
  "Google Places API: " ++ city ++ " attractions"

/-- The source entry recorded on a successful hotels API call. -/
def placesHotelsSource (city : String) : String :=
  "Google Places API: " ++ city ++ " hotels"

/-- The attractions half of `research_city`: Places-API processing (which sets
`api_failed` on an exception or error body and records a source entry on
success), followed by the oracle fallback when the API failed or produced no
attractions.  Returns `(city_attractions, city_sources)` after this phase. -/
def attractionsPhase (city : String) (attrsApi : ApiOutcome (List RawPlace))
    (structured : StructuredResearch) (fallbackAttrs : List Attraction) :
    List Attraction × List String :=
  let step1 : List Attraction × List String × Bool :=
    match attrsApi with
    | .success places =>
      let sources := [placesAttractionsSource city]
      if places.isEmpty then ([], sources, false)
      else (structured.attractions_found, sources ++ structured.sources_browsed, false)
    | .apiError _ => ([], [], true)
    | .exception _ => ([], [], true)
  if step1.2.2 || step1.1.isEmpty then
    if fallbackAttrs.isEmpty then (step1.1, step1.2.1)
    else (fallbackAttrs, step1.2.1 ++ [fallbackAttractionsSource city])
  else (step1.1, step1.2.1)

/-- The hotels half of `research_city`, continuing the accumulated source list. -/
def hotelsPhase (city : String) (sources : List String)
    (hotelsApi : ApiOutcome (List Hotel)) (fallbackHotels : List Hotel) :
    List Hotel × List String :=
  let step3 : List Hotel × List String × Bool :=
    match hotelsApi with
    | .success hs => (hs, sources ++ [placesHotelsSource city], false)
    | .apiError _ => ([], sources, true)
    | .exception _ => ([], sources, true)
  if step3.2.2 || step3.1.isEmpty then
    if fallbackHotels.isEmpty then (step3.1, step3.2.1)
    else (fallbackHotels, step3.2.1 ++ [fallbackHotelsSource city])
  else (step3.1, step3.2.1)

/-- `research_city(allocation)` from `ResearchAgent.run`, on the non-raising
paths (a raising path would append an `Error researching {city}` entry through
the enclosing `except`; no claim is settled on that path).  Returns
`(city_attractions, city_hotels, city_sources)`. -/
def researchCity (city : String)
    (attrsApi : ApiOutcome (List RawPlace)) (structured : StructuredResearch)
    (fallbackAttrs : List Attraction)
    (hotelsApi : ApiOutcome (List Hotel)) (fallbackHotels : List Hotel) :
    List Attraction × List Hotel × List String :=
  if city = "" then ([], [], [])
  else
    let ap := attractionsPhase city attrsApi structured fallbackAttrs
    let hp := hotelsPhase city ap.2 hotelsApi fallbackHotels
    (ap.1, hp.1, hp.2)

/-- Per-city oracle/data inputs for the aggregate research run. -/
structure CityResearchInput where
  city : String
  attrsApi : ApiOutcome (List RawPlace)
  structured : StructuredResearch
  fallbackAttrs : List Attraction
  hotelsApi : ApiOutcome (List Hotel)
  fallbackHotels : List Hotel

/-- `ResearchAgent.run`: fan-out over allocations with a non-empty city (the
task list filters on `alloc.get("city")`), with results concatenated in
allocation order (as `asyncio.gather` preserves order). -/
def researchRun (inputs : List CityResearchInput) :
    List Attraction × List Hotel × List String :=
  (inputs.filter (fun i => i.city ≠ "")).foldr
    (fun i acc =>
      let r := researchCity i.city i.attrsApi i.structured i.fallbackAttrs
        i.hotelsApi i.fallbackHotels
      (r.1 ++ acc.1, r.2.1 ++ acc.2.1, r.2.2 ++ acc.2.2))
    ([], [], [])

/-! ## Finalizer day-plan assembly (`src/graph/nodes.py`, `finalize_node`) -/

/-- A food recommendation as read by the finalizer. -/
structure FoodRec where
  restaurant_name : String
  city : String
  meal_type : String
deriving DecidableEq, Repr

/-- An entry of a day plan's `activities` list. -/
structure Activity where
  time_slot : String
  activity_type : String
  title : String
  attraction : Option Attraction := none
  meal : Option FoodRec := none
deriving DecidableEq, Repr

/-- A day plan record of `final_itinerary.daily_plans`. -/
structure DayPlan where
  day_number : Nat
  city : String
  theme : String
  activities : List Activity
  daily_budget_usd : ℚ
deriving DecidableEq, Repr

/-- Python `f"{n:02d}"` for the hour values reachable in the scheduler. -/
def pad2Int (n : Int) : String :=
  if 0 ≤ n ∧ n < 10 then "0" ++ toString n else toString n

/-- A scheduler time slot string `"{h1:02d}:00 - {h2:02d}:00"`. -/
def fmtSlot (h1 h2 : Int) : String :=
  pad2Int h1 ++ ":00 - " ++ pad2Int h2 ++ ":00"

/-- Deduplication by non-empty `name`, preserving first occurrence
(`if name and name not in seen_names`). -/
def dedupByNameAux (seen : List String) : List Attraction → List Attraction
  | [] => []
  | a :: rest =>
    if a.name ≠ "" ∧ ¬ seen.contains a.name then
      a :: dedupByNameAux (a.name :: seen) rest
    else dedupByNameAux seen rest

/-- The per-city attraction pipeline of `finalize_node`: filter by `city` match,
dedup by name, cap at `days * 4`. -/
def cityAttractionsFor (city : String) (days : Nat) (attractions : List Attraction) :
    List Attraction :=
  (dedupByNameAux [] (attractions.filter (fun a => a.city == city))).take (days * 4)

/-- The morning/afternoon scheduling loop: each attraction gets a slot from
`current_hour` to `min(current_hour + duration, cap)`; after a 1-hour gap the
loop breaks once `cap` is exceeded.  Durations apply
`max(1, int(estimated_duration_hours or default 2))`. -/
def scheduleAttractions (cap : Int) : Int → List Attraction → List Activity
  | _, [] => []
  | current_hour, a :: rest =>
    let duration : Int := max 1 (a.estimated_duration_hours.getD 2)
    let end_hour := if cap < current_hour + duration then cap else current_hour + duration
    let act : Activity :=
      { time_slot := fmtSlot current_hour end_hour
        activity_type := "attraction"
        title := a.name
        attraction := some a }
    if cap < end_hour + 1 then [act]
    else act :: scheduleAttractions cap (end_hour + 1) rest

/-- The meal activity appended when `day_offset < len(city_meals)`. -/
def mealActivity (slot : String) (label : String) (m : FoodRec) : Activity :=
  { time_slot := slot
    activity_type := "meal"
    title := label ++ m.restaurant_name
    meal := some m }

/-- The optional-meal part of a day's activity list. -/
def mealAt (slot : String) (label : String) (meals : List FoodRec) (day_offset : Nat) :
    List Activity :=
  match meals[day_offset]? with
  | some m => [mealActivity slot label m]
  | none => []

/-- Assembly of one day plan (the body of `for day_offset in range(days_in_city)`),
given the attraction chunk already sliced for this day. -/
def buildDayPlan (day_number : Nat) (day_offset : Nat) (city : String)
    (breakfasts lunches dinners : List FoodRec) (day_attractions : List Attraction)
    (daily_budget : ℚ) : DayPlan :=
  let dayAttrs := day_attractions.take 4
  let morning := dayAttrs.take 2
  let afternoon := (dayAttrs.drop 2).take 2
  { day_number := day_number
    city := city
    theme := "Day " ++ toString (day_offset + 1) ++ " in " ++ city
    activities :=
      mealAt "08:00 - 09:00" "Breakfast: " breakfasts day_offset ++
      scheduleAttractions 12 9 morning ++
      mealAt "12:30 - 14:00" "Lunch: " lunches day_offset ++
      scheduleAttractions 18 14 afternoon ++
      mealAt "19:00 - 21:00" "Dinner: " dinners day_offset
    daily_budget_usd := daily_budget }

/-- The per-city day loop, threading the global day counter and the index into
the city's capped attraction list. -/
def cityDaysGo (city : String) (cityAttrs : List Attraction)
    (breakfasts lunches dinners : List FoodRec) (base extra : Nat) (daily_budget : ℚ) :
    Nat → Nat → Nat → Nat → List DayPlan
  | _, _, _, 0 => []
  | day_number, attraction_idx, day_offset, remaining + 1 =>
    let attractions_today := base + (if day_offset < extra then 1 else 0)
    let day_attractions := (cityAttrs.drop attraction_idx).take attractions_today
    buildDayPlan day_number day_offset city breakfasts lunches dinners day_attractions
        daily_budget ::
      cityDaysGo city cityAttrs breakfasts lunches dinners base extra daily_budget
        (day_number + 1) (attraction_idx + attractions_today) (day_offset + 1) remaining

/-- All day plans of one city allocation. -/
def cityDayPlans (day_number : Nat) (cityInfo : CityAllocation)
    (attractions : List Attraction) (food : List FoodRec) (daily_budget : ℚ) :
    List DayPlan :=
  let city := cityInfo.city
  let days := cityInfo.days
  let cityAttrs := cityAttractionsFor city days attractions
  let city_food := food.filter (fun f => f.city == city)
  let breakfasts := city_food.filter (fun f => f.meal_type == "breakfast")
  let lunches := city_food.filter (fun f => f.meal_type == "lunch")
  let dinners := city_food.filter (fun f => f.meal_type == "dinner")
  let total := cityAttrs.length
  let base := if 0 < days then total / days else 0
  let extra := if 0 < days then total % days else 0
  cityDaysGo city cityAttrs breakfasts lunches dinners base extra daily_budget
    day_number 0 0 days

/-- The city loop of `finalize_node`, threading `day_number` across cities. -/
def dailyPlansGo (attractions : List Attraction) (food : List FoodRec)
    (daily_budget : ℚ) : Nat → List CityAllocation → List DayPlan
  | _, [] => []
  | day_number, c :: rest =>
    cityDayPlans day_number c attractions food daily_budget ++
      dailyPlansGo attractions food daily_budget (day_number + c.days) rest

/-- The `daily_plans` list built by `finalize_node`: cities sorted by
`visit_order` (a stable sort, as Python `sorted` is), then the day loop.  The
daily budget `budget_breakdown.get("total", 0) / trip_summary.get("total_days", 1)`
is a constant per run and is passed in as a rational. -/
def finalizeDailyPlans (city_allocations : List CityAllocation)
    (attractions : List Attraction) (food : List FoodRec) (daily_budget : ℚ) :
    List DayPlan :=
  let sorted_cities :=
    List.insertionSort (fun a b => a.visit_order ≤ b.visit_order) city_allocations
  dailyPlansGo attractions food daily_budget 1 sorted_cities

/-! ## Travel-date parsing (`src/graph/nodes.py`, `parse_travel_dates`)

The three `re.search` calls are embedded as anchored matchers tried at every
start position left to right, exactly mirroring the leftmost-match search.
For these particular patterns the greedy quantifiers need backtracking only at
the `\d{1,2}` groups (two digits tried before one); every other quantifier is
followed by a disjoint character class, so its maximal run is the only viable
choice.  Character classes are the ASCII reading of `\w`, `\d`, `\s`; the
`IGNORECASE` flag makes the class `[-–to]` accept `T` and `O` as well. -/

/-- ASCII model of the regex class `\w`. -/
def isPyWordChar (c : Char) : Bool := c.isAlpha || c.isDigit || c == '_'

/-- The regex class `\d`. -/
def isPyDigit (c : Char) : Bool := c.isDigit

/-- The class `[-–to]` under `IGNORECASE`. -/
def isSepChar (c : Char) : Bool :=
  c == '-' || c == '–' || c == 't' || c == 'o' || c == 'T' || c == 'O'

/-- Numeric value of a decimal digit character. -/
def digitVal (c : Char) : Nat := c.toNat - '0'.toNat

/-- Greedy `(\d{1,2})`: try two digits first, then one, feeding the remainder
and the numeric value to the continuation. -/
def takeDigits12 {α : Type} (l : List Char) (k : List Char → Nat → Option α) : Option α :=
  match l with
  | [] => none
  | d1 :: rest1 =>
    if isPyDigit d1 then
      match rest1 with
      | d2 :: rest2 =>
        if isPyDigit d2 then
          match k rest2 (digitVal d1 * 10 + digitVal d2) with
          | some r => some r
          | none => k rest1 (digitVal d1)
        else k rest1 (digitVal d1)
      | [] => k rest1 (digitVal d1)
    else none

/-- Exactly `n` digits, returned as characters together with the remainder. -/
def takeDigitsExact : Nat → List Char → Option (List Char × List Char)
  | 0, l => some ([], l)
  | _ + 1, [] => none
  | n + 1, c :: rest =>
    if isPyDigit c then
      match takeDigitsExact n rest with
      | some (ds, r) => some (c :: ds, r)
      | none => none
    else none

/-- Numeric value of a digit-character run. -/
def digitsValue (l : List Char) : Nat := l.foldl (fun acc c => acc * 10 + digitVal c) 0

/-- Anchored match of pattern 1,
`(\w+)\s+(\d{1,2})\s*[-–to]+\s*(\d{1,2}),?\s*(\d{4})` with `IGNORECASE`,
returning `(month_str, start_day, end_day, year)`. -/
def match1At (l : List Char) : Option (String × Nat × Nat × Nat) :=
  let sp := l.span isPyWordChar
  if sp.1.isEmpty then none
  else
    let sp2 := sp.2.span isPySpace
    if sp2.1.isEmpty then none
    else
      takeDigits12 sp2.2 (fun r3 d1 =>
        let r4 := r3.dropWhile isPySpace
        let sep := r4.span isSepChar
        if sep.1.isEmpty then none
        else
          let r6 := sep.2.dropWhile isPySpace
          takeDigits12 r6 (fun r7 d2 =>
            let r8 := match r7 with
              | ',' :: t => t
              | other => other
            let r9 := r8.dropWhile isPySpace
            match takeDigitsExact 4 r9 with
            | some (ys, _) => some (String.mk sp.1, d1, d2, digitsValue ys)
            | none => none))

/-- Leftmost search for pattern 1 (`re.search` tries start positions in order). -/
def searchPattern1 : List Char → Option (String × Nat × Nat × Nat)
  | [] => match1At []
  | l@(_ :: t) =>
    match match1At l with
    | some r => some r
    | none => searchPattern1 t

/-- The alternation `(?:to|-|–)` of pattern 2 (its branches start with distinct
characters, so no backtracking across the alternation is possible). -/
def sepAlt : List Char → Option (List Char)
  | 't' :: 'o' :: r => some r
  | '-' :: r => some r
  | '–' :: r => some r
  | _ => none

/-- Anchored match of pattern 2,
`(\d{4})-(\d{2})-(\d{2})\s*(?:to|-|–)\s*(\d{4})-(\d{2})-(\d{2})`,
returning the six captured digit runs as strings. -/
def match2At (l : List Char) : Option (String × String × String × String × String × String) :=
  match takeDigitsExact 4 l with
  | none => none
  | some (y1, r1) =>
    match r1 with
    | '-' :: r2 =>
      match takeDigitsExact 2 r2 with
      | none => none
      | some (m1, r3) =>
        match r3 with
        | '-' :: r4 =>
          match takeDigitsExact 2 r4 with
          | none => none
          | some (d1, r5) =>
            match sepAlt (r5.dropWhile isPySpace) with
            | none => none
            | some r6 =>
              match takeDigitsExact 4 (r6.dropWhile isPySpace) with
              | none => none
              | some (y2, r7) =>
                match r7 with
                | '-' :: r8 =>
                  match takeDigitsExact 2 r8 with
                  | none => none
                  | some (m2, r9) =>
                    match r9 with
                    | '-' :: r10 =>
                      match takeDigitsExact 2 r10 with
                      | none => none
                      | some (d2, _) =>
                        some (String.mk y1, String.mk m1, String.mk d1,
                              String.mk y2, String.mk m2, String.mk d2)
                    | _ => none
                | _ => none
        | _ => none
    | _ => none

/-- Leftmost search for pattern 2. -/
def searchPattern2 : List Char → Option (String × String × String × String × String × String)
  | [] => match2At []
  | l@(_ :: t) =>
    match match2At l with
    | some r => some r
    | none => searchPattern2 t

/-- Anchored match of pattern 3, `(\w+)\s+(\d{1,2}),?\s*(\d{4})` with
`IGNORECASE`, returning `(month_str, day, year)`. -/
def match3At (l : List Char) : Option (String × Nat × Nat) :=
  let sp := l.span isPyWordChar
  if sp.1.isEmpty then none
  else
    let sp2 := sp.2.span isPySpace
    if sp2.1.isEmpty then none
    else
      takeDigits12 sp2.2 (fun r3 d =>
        let r4 := match r3 with
          | ',' :: t => t
          | other => other
        let r5 := r4.dropWhile isPySpace
        match takeDigitsExact 4 r5 with
        | some (ys, _) => some (String.mk sp.1, d, digitsValue ys)
        | none => none)

/-- Leftmost search for pattern 3. -/
def searchPattern3 : List Char → Option (String × Nat × Nat)
  | [] => match3At []
  | l@(_ :: t) =>
    match match3At l with
    | some r => some r
    | none => searchPattern3 t

/-- The `month_map.get(month_str.lower(), 1)` lookup. -/
def monthNum (s : String) : Nat :=
  if s = "jan" ∨ s = "january" then 1
  else if s = "feb" ∨ s = "february" then 2
  else if s = "mar" ∨ s = "march" then 3
  else if s = "apr" ∨ s = "april" then 4
  else if s = "may" then 5
  else if s = "jun" ∨ s = "june" then 6
  else if s = "jul" ∨ s = "july" then 7
  else if s = "aug" ∨ s = "august" then 8
  else if s = "sep" ∨ s = "september" then 9
  else if s = "oct" ∨ s = "october" then 10
  else if s = "nov" ∨ s = "november" then 11
  else if s = "dec" ∨ s = "december" then 12
  else 1

/-- Gregorian leap-year rule used by `datetime.date`. -/
def isLeapYear (y : Nat) : Bool := y % 4 == 0 && (y % 100 != 0 || y % 400 == 0)

/-- Days in a month for `datetime.date` validity. -/
def daysInMonth (y m : Nat) : Nat :=
  if m = 1 ∨ m = 3 ∨ m = 5 ∨ m = 7 ∨ m = 8 ∨ m = 10 ∨ m = 12 then 31
  else if m = 4 ∨ m = 6 ∨ m = 9 ∨ m = 11 then 30
  else if m = 2 then (if isLeapYear y then 29 else 28)
  else 0

/-- Left-pad a number with zeros to the given width. -/
def padNat (width n : Nat) : String :=
  let s := toString n
  let k := width - s.length
  String.mk (List.replicate k '0') ++ s

/-- `date(year, month, day).isoformat()` when the date is valid, else `none`
(the `ValueError` caught by the surrounding `try`). -/
def mkValidDate (y m d : Nat) : Option String :=
  if 1 ≤ y ∧ y ≤ 9999 ∧ 1 ≤ m ∧ m ≤ 12 ∧ 1 ≤ d ∧ d ≤ daysInMonth y m then
    some (padNat 4 y ++ "-" ++ padNat 2 m ++ "-" ++ padNat 2 d)
  else none

/-- The record returned by `parse_travel_dates`. -/
structure ParsedDates where
  start_date : Option String
  end_date : Option String
  flexibility : String
  description : String
deriving DecidableEq, Repr

/-- The `flexible_indicators` list. -/
def flexible_indicators : List String :=
  ["around", "sometime", "mid-", "early", "late",
   "flexible", "approximately", "about", "roughly"]

/-- `any(ind in date_answer.lower() for ind in flexible_indicators)`. -/
def containsFlexibleIndicator (s : String) : Bool :=
  flexible_indicators.any (fun ind => pyContains (pyLower s) ind)

/-- `parse_travel_dates(date_answer)`.  All raising operations inside the
source (`date(...)` construction) are wrapped in `try/except` there, and are
modelled here by the `Option`-valued `mkValidDate`, so the function is total:
no input makes it raise.  Note that a pattern-1 match whose start day is valid
but whose end day is not leaves `start_date` assigned before falling through to
the later patterns, exactly as the partially-executed `try` block does. -/
def parse_travel_dates (date_answer : String) : ParsedDates :=
  let base : ParsedDates :=
    { start_date := none, end_date := none, flexibility := "specific",
      description := date_answer }
  if date_answer = "" then base
  else if containsFlexibleIndicator date_answer then
    { base with flexibility := "flexible_week" }
  else
    let afterP1 : ParsedDates ⊕ ParsedDates :=
      match searchPattern1 date_answer.data with
      | some (month_str, start_day, end_day, year) =>
        let month := monthNum (pyLower month_str)
        match mkValidDate year month start_day with
        | some s1 =>
          match mkValidDate year month end_day with
          | some s2 => Sum.inl { base with start_date := some s1, end_date := some s2 }
          | none => Sum.inr { base with start_date := some s1 }
        | none => Sum.inr base
      | none => Sum.inr base
    match afterP1 with
    | Sum.inl r => r
    | Sum.inr res1 =>
      match searchPattern2 date_answer.data with
      | some (y1, m1, d1, y2, m2, d2) =>
        { res1 with
            start_date := some (y1 ++ "-" ++ m1 ++ "-" ++ d1),
            end_date := some (y2 ++ "-" ++ m2 ++ "-" ++ d2) }
      | none =>
        match searchPattern3 date_answer.data with
        | some (month_str, day, year) =>
          match mkValidDate year (monthNum (pyLower month_str)) day with
          | some s1 => { res1 with start_date := some s1 }
          | none => res1
        | none => res1

/-! ## Activity counters used to state the finalizer bounds -/

/-- Number of attraction-typed activities in a day plan. -/
def countAttractionActivities (p : DayPlan) : Nat :=
  (p.activities.filter (fun a => a.activity_type == "attraction")).length

/-- Number of meal-typed activities in a day plan. -/
def countMealActivities (p : DayPlan) : Nat :=
  (p.activities.filter (fun a => a.activity_type == "meal")).length

/-- Number of meal activities in a given time slot (the three meal kinds occupy
the fixed slots 08:00-09:00, 12:30-14:00 and 19:00-21:00). -/
def countMealAt (slot : String) (p : DayPlan) : Nat :=
  (p.activities.filter (fun a => a.activity_type == "meal" && a.time_slot == slot)).length

/-- The activity bounds claimed for every emitted day plan: at most 4
attraction activities, at most 3 meal activities, and at most one meal in each
of the three meal slots. -/
def DayPlanWithinBounds (plan : DayPlan) : Prop :=
  countAttractionActivities plan ≤ 4 ∧ countMealActivities plan ≤ 3 ∧
  countMealAt "08:00 - 09:00" plan ≤ 1 ∧ countMealAt "12:30 - 14:00" plan ≤ 1 ∧
  countMealAt "19:00 - 21:00" plan ≤ 1

/-- A day plan draws its scheduled attractions from the per-city pipeline of
the given allocation: city-filtered, name-deduplicated, capped at `days * 4`. -/
def PlanDrawnFrom (attractions : List Attraction) (alloc : CityAllocation)
    (plan : DayPlan) : Prop :=
  alloc.city = plan.city ∧
  ∀ act ∈ plan.activities, ∀ a, act.attraction = some a →
    a ∈ cityAttractionsFor alloc.city alloc.days attractions

/-! ## Concrete fixtures used by witnesses and counterexamples -/

/-- A critic answer that still demands re-planning. -/
def replanCriticOutput : CriticOutput :=
  { is_valid := false
    overall_score := 50
    issues := [{ category := "logistics"
                 description := "Route backtracks"
                 severity := IssueSeverity.critical }]
    requires_replanning := true }

/-- The state slice of a session resumed with clarification answers. -/
def resumedStateExample : EdgeState :=
  { clarification_needed := some true
    clarification_answers := some [("origin_city", "Delhi")]
    validation_result := none }

/-- Two planned cities, used by the geography reorder counterexample. -/
def allocSampleA : CityAllocation :=
  { city := "A", country := "X", days := 2, visit_order := 1 }

/-- Second planned city of the reorder counterexample. -/
def allocSampleB : CityAllocation :=
  { city := "B", country := "X", days := 3, visit_order := 2 }

/-- Research fixture: a fallback attraction for Paris. -/
def parisFallbackAttraction : Attraction :=
  { name := "Eiffel Tower", city := "Paris" }

/-- Research fixture: oracle inputs where every source fails and both
fallbacks come back empty. -/
def parisAllFailInput : CityResearchInput :=
  { city := "Paris"
    attrsApi := ApiOutcome.apiError "OVER_QUERY_LIMIT"
    structured := { attractions_found := [], sources_browsed := [] }
    fallbackAttrs := []
    hotelsApi := ApiOutcome.apiError "OVER_QUERY_LIMIT"
    fallbackHotels := [] }

/-- Finalizer fixture: one allocation. -/
def romeAllocs : List CityAllocation :=
  [{ city := "Rome", country := "Italy", days := 1, visit_order := 1 }]

/-- Finalizer fixture: five researched attractions in Rome. -/
def romeAttractions : List Attraction :=
  [{ name := "Colosseum", city := "Rome", category := "landmark", estimated_duration_hours := some 2 },
   { name := "Forum", city := "Rome", category := "landmark", estimated_duration_hours := some 3 },
   { name := "Vatican", city := "Rome", category := "landmark", estimated_duration_hours := some 2 },
   { name := "Pantheon", city := "Rome", category := "landmark", estimated_duration_hours := some 1 },
   { name := "Trevi", city := "Rome", category := "landmark", estimated_duration_hours := some 1 }]

/-- Finalizer fixture: one recommendation of each meal kind. -/
def romeFood : List FoodRec :=
  [{ restaurant_name := "Cafe", city := "Rome", meal_type := "breakfast" },
   { restaurant_name := "Trattoria", city := "Rome", meal_type := "lunch" },
   { restaurant_name := "Osteria", city := "Rome", meal_type := "dinner" }]

/-- The day plans produced on the Rome fixture. -/
def romePlans : List DayPlan := finalizeDailyPlans romeAllocs romeAttractions romeFood 100

/-- A default day plan, only used to select an element of `romePlans`. -/
def emptyDayPlan : DayPlan :=
  { day_number := 0, city := "", theme := "", activities := [], daily_budget_usd := 0 }

/-- The first day plan of the Rome fixture. -/
def romePlan : DayPlan := romePlans.getD 0 emptyDayPlan

/-! # Theorems -/

/-! ## C8: transport cache TTL selection -/

/-- The curated set is closed under swapping the pair. -/
theorem high_freq_routes_swap_perm :
    (high_freq_routes.map Prod.swap).Perm high_freq_routes := by decide

/-- Membership of a pair in the curated set is symmetric. -/
theorem high_freq_routes_mem_swap (x y : String) :
    (x, y) ∈ high_freq_routes ↔ (y, x) ∈ high_freq_routes := by
  constructor
  · intro h
    have hmem : (y, x) ∈ high_freq_routes.map Prod.swap :=
      List.mem_map_of_mem Prod.swap h
    exact high_freq_routes_swap_perm.mem_iff.mp hmem
  · intro h
    have hmem : (x, y) ∈ high_freq_routes.map Prod.swap :=
      List.mem_map_of_mem Prod.swap h
    exact high_freq_routes_swap_perm.mem_iff.mp hmem

/-- C8: `get_transport_cache_ttl` is symmetric in the unordered pair, returns
7200 s exactly when the normalized (lowercased, stripped) pair lies in the
curated high-frequency set, and 14400 s otherwise. -/
theorem transport_cache_ttl_spec (a b : String) :
    get_transport_cache_ttl a b = get_transport_cache_ttl b a ∧
    (get_transport_cache_ttl a b = 7200 ↔
      (normalizeLocation a, normalizeLocation b) ∈ high_freq_routes) ∧
    (get_transport_cache_ttl a b = 14400 ↔
      (normalizeLocation a, normalizeLocation b) ∉ high_freq_routes) := by
  have hsym : is_high_frequency_route a b = is_high_frequency_route b a := by
    unfold is_high_frequency_route
    exact decide_eq_decide.mpr (high_freq_routes_mem_swap _ _)
  refine ⟨?_, ?_, ?_⟩
  · unfold get_transport_cache_ttl
    rw [hsym]
  · by_cases h : (normalizeLocation a, normalizeLocation b) ∈ high_freq_routes
    · simp [get_transport_cache_ttl, is_high_frequency_route, DYNAMIC_ROUTE_TTL,
        TRANSPORT_CACHE_TTL, h]
    · simp [get_transport_cache_ttl, is_high_frequency_route, DYNAMIC_ROUTE_TTL,
        TRANSPORT_CACHE_TTL, h]
  · by_cases h : (normalizeLocation a, normalizeLocation b) ∈ high_freq_routes
    · simp [get_transport_cache_ttl, is_high_frequency_route, DYNAMIC_ROUTE_TTL,
        TRANSPORT_CACHE_TTL, h]
    · simp [get_transport_cache_ttl, is_high_frequency_route, DYNAMIC_ROUTE_TTL,
        TRANSPORT_CACHE_TTL, h]

/-! ## C1: the critic force-approves at the iteration cap -/

/-- C1: whenever the critic runs with `iteration_count ≥ MAX_REPLAN_ITERATIONS`
and the oracle demands re-planning, the returned update carries
`requires_replanning = false`, `is_valid = true`, and the issue list extended by
exactly one synthetic issue of severity `medium` and category `process`
describing the reached cap. -/
theorem critic_cap_force_approves (iteration max_iterations : Nat) (result : CriticOutput)
    (hcap : max_iterations ≤ iteration) (hrep : result.requires_replanning = true) :
    (criticRun iteration max_iterations result).validation_result.requires_replanning = false ∧
    (criticRun iteration max_iterations result).validation_result.is_valid = true ∧
    (criticRun iteration max_iterations result).validation_result.issues =
      result.issues.map issueToDict ++ [issueToDict (capIssue max_iterations)] ∧
    (issueToDict (capIssue max_iterations)).severity = "medium" ∧
    (issueToDict (capIssue max_iterations)).category = "process" ∧
    (issueToDict (capIssue max_iterations)).description =
      "Max re-planning iterations (" ++ toString max_iterations ++
        ") reached. Approving with known issues." := by
  simp [criticRun, criticPost, buildValidationResult, issueToDict, capIssue,
    IssueSeverity.value, hcap, hrep]

/-- Witness for C1 at `iteration = 3`, `max_iterations = 3` on a critic answer
that demands re-planning. -/
theorem critic_cap_force_approves_witness :
    (criticRun 3 3 replanCriticOutput).validation_result.requires_replanning = false ∧
    (criticRun 3 3 replanCriticOutput).validation_result.is_valid = true ∧
    (criticRun 3 3 replanCriticOutput).validation_result.issues =
      replanCriticOutput.issues.map issueToDict ++ [issueToDict (capIssue 3)] ∧
    (issueToDict (capIssue 3)).severity = "medium" ∧
    (issueToDict (capIssue 3)).category = "process" ∧
    (issueToDict (capIssue 3)).description =
      "Max re-planning iterations (" ++ toString 3 ++
        ") reached. Approving with known issues." :=
  critic_cap_force_approves 3 3 replanCriticOutput (by decide) (by decide)

/-! ## C2: iteration_count stays within the cap -/

/-- One critic execution keeps `iteration_count` within the cap. -/
theorem criticIterStep_le (max_iterations iteration : Nat) (result : CriticOutput)
    (h : iteration ≤ max_iterations) :
    criticIterStep max_iterations iteration result ≤ max_iterations := by
  cases hr : result.requires_replanning with
  | false =>
    simp [criticIterStep, criticRun, criticPost, hr, h]
  | true =>
    by_cases hi : max_iterations ≤ iteration
    · simp [criticIterStep, criticRun, criticPost, hr, hi, h]
    · have hlt : iteration + 1 ≤ max_iterations := Nat.succ_le_of_lt (Nat.lt_of_not_le hi)
      simp [criticIterStep, criticRun, criticPost, hr, hi, hlt]

/-- C2: starting from `iteration_count = 0`, after any sequence of critic-node
executions the counter lies in `[0, MAX_REPLAN_ITERATIONS]`. -/
theorem iteration_count_bounded (max_iterations : Nat) (outs : List CriticOutput) :
    List.foldl (criticIterStep max_iterations) 0 outs ≤ max_iterations ∧
    0 ≤ List.foldl (criticIterStep max_iterations) 0 outs := by
  refine ⟨?_, Nat.zero_le _⟩
  have hfold : ∀ (l : List CriticOutput) (i : Nat), i ≤ max_iterations →
      List.foldl (criticIterStep max_iterations) i l ≤ max_iterations := by
    intro l
    induction l with
    | nil => intro i h; simpa using h
    | cons hd tl ih =>
      intro i h
      simpa using ih _ (criticIterStep_le _ _ _ h)
  exact hfold outs 0 (Nat.zero_le _)

/-! ## C3: the conditional edge out of clarification -/

/-- Falsiness of the answers dict is exactly absence or emptiness. -/
theorem answersTruthy_eq_false_iff (o : Option (List (String × String))) :
    answersTruthy o = false ↔ o = none ∨ o = some [] := by
  cases o with
  | none => simp [answersTruthy]
  | some l => cases l <;> simp [answersTruthy]

/-- C3: the edge out of clarification yields the terminal branch
`wait_for_answers` iff `clarification_needed` is truthy and the answers are
absent or empty; in every other case it yields `proceed_to_planner`, and the
graph maps the two labels to `END` and the planner node respectively. -/
theorem clarification_edge_spec (s : EdgeState) :
    (needs_clarification s = "wait_for_answers" ↔
      s.clarification_needed.getD false = true ∧
        (s.clarification_answers = none ∨ s.clarification_answers = some [])) ∧
    (needs_clarification s = "proceed_to_planner" ↔
      ¬ (s.clarification_needed.getD false = true ∧
        (s.clarification_answers = none ∨ s.clarification_answers = some []))) ∧
    (successorOf travelGraph "clarification" s = some GraphTarget.endOfGraph ↔
      needs_clarification s = "wait_for_answers") ∧
    (successorOf travelGraph "clarification" s = some (GraphTarget.node "planner") ↔
      needs_clarification s = "proceed_to_planner") := by
  have hsucc : successorOf travelGraph "clarification" s =
      condLookup [("wait_for_answers", GraphTarget.endOfGraph),
                  ("proceed_to_planner", GraphTarget.node "planner")]
        (needs_clarification s) := rfl
  by_cases hc : s.clarification_needed.getD false = true ∧
      answersTruthy s.clarification_answers = false
  · have hret : needs_clarification s = "wait_for_answers" := by
      simp [needs_clarification, hc.1, hc.2]
    refine ⟨?_, ?_, ?_, ?_⟩
    · simp [hret, hc.1, (answersTruthy_eq_false_iff _).mp hc.2]
    · simp [hret, hc.1, (answersTruthy_eq_false_iff _).mp hc.2]
    · simp [hsucc, hret, condLookup]
    · simp [hsucc, hret, condLookup]
  · have hret : needs_clarification s = "proceed_to_planner" := by
      rcases Decidable.not_and_iff_or_not.mp hc with h | h
      · have : s.clarification_needed.getD false = false := by
          revert h; cases s.clarification_needed.getD false <;> simp
        simp [needs_clarification, this]
      · have : answersTruthy s.clarification_answers = true := by
          revert h; cases answersTruthy s.clarification_answers <;> simp
        simp [needs_clarification, this]
    have hnot : ¬ (s.clarification_needed.getD false = true ∧
        (s.clarification_answers = none ∨ s.clarification_answers = some [])) := by
      intro h
      exact hc ⟨h.1, (answersTruthy_eq_false_iff _).mpr h.2⟩
    refine ⟨?_, ?_, ?_, ?_⟩
    · simp [hret, hnot]
    · simp [hret, hnot]
    · simp [hsucc, hret, condLookup]
    · simp [hsucc, hret, condLookup]

/-! ## C4: the resumed run never reaches process_answers -/

/-- C4 (code evaluation): the `process_answers` node is registered but has no
incoming edge at all — no static edge targets it, no conditional branch maps to
it, and it is not the entry point — and on a state resumed with answers the
clarification edge routes directly to `planner`.  The node is therefore
unreachable in any execution, contradicting the resume protocol of the spec and
the source's own comments. -/
theorem process_answers_unreachable :
    "process_answers" ∈ travelGraph.nodes ∧
    (∀ e ∈ travelGraph.edges, e.2 ≠ GraphTarget.node "process_answers") ∧
    (∀ ce ∈ travelGraph.condEdges, ∀ b ∈ ce.branches,
      b.2 ≠ GraphTarget.node "process_answers") ∧
    travelGraph.entry ≠ "process_answers" ∧
    needs_clarification resumedStateExample = "proceed_to_planner" ∧
    successorOf travelGraph "clarification" resumedStateExample =
      some (GraphTarget.node "planner") := by
  refine ⟨by decide, ?_, ?_, by decide, by decide, ?_⟩
  · intro e he
    simp only [travelGraph, List.mem_cons, List.not_mem_nil, or_false] at he
    rcases he with rfl | rfl | rfl | rfl | rfl | rfl | rfl <;> decide
  · intro ce hce
    simp only [travelGraph, List.mem_cons, List.not_mem_nil, or_false] at hce
    rcases hce with rfl | rfl <;>
      · intro b hb
        simp only [List.mem_cons, List.not_mem_nil, or_false] at hb
        rcases hb with rfl | rfl <;> decide
  · rfl

/-! ## C5: the edge out of food_culture -/

/-- C5 counterexample: in the compiled workflow the only edge out of
`food_culture` goes straight to `transport_budget`, no conditional edge leaves
`food_culture`, and no price-scraper node (`price_scraper` or
`transport_scraper`) is registered in the graph at all — so the node executed
between `food_culture` and `transport_budget` cannot be the price-scraper
worker. -/
theorem food_culture_edge_counterexample :
    staticNext travelGraph "food_culture" = some (GraphTarget.node "transport_budget") ∧
    travelGraph.edges.filter (fun e => e.1 == "food_culture") =
      [("food_culture", GraphTarget.node "transport_budget")] ∧
    "price_scraper" ∉ travelGraph.nodes ∧
    "transport_scraper" ∉ travelGraph.nodes ∧
    (travelGraph.condEdges.find? (fun ce => ce.source == "food_culture")).isNone = true :=
  ⟨rfl, by decide, by decide, by decide, rfl⟩

/-- C5 amended: for every state, the successor of `food_culture` is
`transport_budget` directly; the transport-scraper worker exists in the source
but is not wired into the graph, so no node runs between the two. -/
theorem food_culture_successor_amended (s : EdgeState) :
    successorOf travelGraph "food_culture" s = some (GraphTarget.node "transport_budget") ∧
    "price_scraper" ∉ travelGraph.nodes ∧
    "transport_scraper" ∉ travelGraph.nodes :=
  ⟨rfl, by decide, by decide⟩

/-! ## C10: the geography allocation rewrite -/

/-- A successful city-map lookup returns an allocation carrying the looked-up
name. -/
theorem cityMapFind_city_eq (allocs : List CityAllocation) (name : String)
    (a : CityAllocation) (h : cityMapFind allocs name = some a) : a.city = name := by
  unfold cityMapFind at h
  have hmem := List.mem_of_mem_getLast? h
  have hpred := (List.mem_filter.mp hmem).2
  simpa using hpred

/-- A successful city-map lookup returns one of the original allocations. -/
theorem cityMapFind_mem (allocs : List CityAllocation) (name : String)
    (a : CityAllocation) (h : cityMapFind allocs name = some a) : a ∈ allocs := by
  unfold cityMapFind at h
  exact (List.mem_filter.mp (List.mem_of_mem_getLast? h)).1

/-- The reorder loop emits, in order, one `(position, name)` pair per name of
`optimized_order` that matches a planned city, with the 1-based position also
advanced on dropped names. -/
theorem reorderAllocations_pairs (allocs : List CityAllocation) :
    ∀ (names : List String) (i : Nat),
      (reorderAllocations allocs i names).map (fun a => (a.visit_order, a.city)) =
        (List.enumFrom i names).filterMap
          (fun p => if (cityMapFind allocs p.2).isSome then some p else none) := by
  intro names
  induction names with
  | nil => intro i; rfl
  | cons n rest ih =>
    intro i
    cases hfind : cityMapFind allocs n with
    | none => simp [reorderAllocations, hfind, List.enumFrom, ih]
    | some a =>
      have hcity := cityMapFind_city_eq allocs n a hfind
      simp [reorderAllocations, hfind, List.enumFrom, ih, hcity]

/-- Every allocation emitted by the reorder loop is a copy of an original
allocation with every field except `visit_order` unchanged. -/
theorem reorderAllocations_frame (allocs : List CityAllocation) :
    ∀ (names : List String) (i : Nat) (a : CityAllocation),
      a ∈ reorderAllocations allocs i names →
      ∃ orig ∈ allocs, orig.city = a.city ∧ a.country = orig.country ∧
        a.days = orig.days ∧ a.highlights = orig.highlights ∧
        a.reasoning = orig.reasoning := by
  intro names
  induction names with
  | nil => intro i a h; simp [reorderAllocations] at h
  | cons n rest ih =>
    intro i a h
    cases hfind : cityMapFind allocs n with
    | none =>
      simp only [reorderAllocations, hfind] at h
      exact ih _ _ h
    | some orig =>
      simp only [reorderAllocations, hfind, List.mem_cons] at h
      rcases h with rfl | h
      · exact ⟨orig, cityMapFind_mem allocs n orig hfind, rfl, rfl, rfl, rfl, rfl⟩
      · exact ih _ _ h

/-- When every name matches a planned city, the emitted visit orders are the
consecutive positions starting at the loop's initial counter. -/
theorem reorderAllocations_all_matched (allocs : List CityAllocation) :
    ∀ (names : List String) (i : Nat),
      (∀ n ∈ names, (cityMapFind allocs n).isSome = true) →
      (reorderAllocations allocs i names).map (fun a => a.visit_order) =
        List.range' i names.length := by
  intro names
  induction names with
  | nil => intro i _; rfl
  | cons n rest ih =>
    intro i h
    have hn := h n (by simp)
    cases hfind : cityMapFind allocs n with
    | none => rw [hfind] at hn; simp at hn
    | some a =>
      rw [List.length_cons, List.range'_succ]
      simp [reorderAllocations, hfind, ih _ (fun m hm => h m (by simp [hm]))]

/-- C10 amended: when the geography worker rewrites `city_allocations`, each
emitted entry is a copy of the (last) planned allocation with the matching city
name, with only `visit_order` rewritten to the name's 1-based position in
`optimized_order`; non-matching names are dropped but still consume a position;
and when every name of `optimized_order` matches a planned city the resulting
visit orders are exactly `1..N` (the converse fails, see the counterexample). -/
theorem geography_reorder_spec (allocs : List CityAllocation)
    (optimized_order : List String) :
    ((updated_allocations allocs optimized_order).map (fun a => (a.visit_order, a.city)) =
      (List.enumFrom 1 optimized_order).filterMap
        (fun p => if (cityMapFind allocs p.2).isSome then some p else none)) ∧
    (∀ a ∈ updated_allocations allocs optimized_order,
      ∃ orig ∈ allocs, orig.city = a.city ∧ a.country = orig.country ∧
        a.days = orig.days ∧ a.highlights = orig.highlights ∧
        a.reasoning = orig.reasoning) ∧
    ((∀ n ∈ optimized_order, (cityMapFind allocs n).isSome = true) →
      (updated_allocations allocs optimized_order).map (fun a => a.visit_order) =
        List.range' 1 optimized_order.length) :=
  ⟨reorderAllocations_pairs allocs optimized_order 1,
   fun a h => reorderAllocations_frame allocs optimized_order 1 a h,
   fun h => reorderAllocations_all_matched allocs optimized_order 1 h⟩

/-- Witness for the amended C10 at a concrete reordering where every name
matches. -/
theorem geography_reorder_spec_witness :
    (updated_allocations [allocSampleA, allocSampleB] ["B", "A"]).map
        (fun a => a.visit_order) = List.range' 1 2 :=
  (geography_reorder_spec [allocSampleA, allocSampleB] ["B", "A"]).2.2 (by decide)

/-- C10 counterexample: with planned cities `A` and `B` and
`optimized_order = ["A", "A"]`, the rewritten allocations' visit orders form
exactly the permutation `[1, 2]` of `1..2`, although `optimized_order` does not
consist of the planned city names (`B` is missing, `A` is repeated) — so the
"only when" half of the claim fails on the code. -/
theorem geography_reorder_counterexample :
    (updated_allocations [allocSampleA, allocSampleB] ["A", "A"]).map
        (fun a => a.visit_order) = [1, 2] ∧
    (updated_allocations [allocSampleA, allocSampleB] ["A", "A"]).length = 2 ∧
    [allocSampleA, allocSampleB].map (fun a => a.city) = ["A", "B"] ∧
    "B" ∉ (["A", "A"] : List String) := by decide

/-! ## C9: research fallback bookkeeping -/

/-- If the attractions phase ends with no attractions, the oracle fallback
itself returned the empty list. -/
theorem attractionsPhase_empty (city : String) (attrsApi : ApiOutcome (List RawPlace))
    (structured : StructuredResearch) (fallbackAttrs : List Attraction)
    (h : (attractionsPhase city attrsApi structured fallbackAttrs).1 = []) :
    fallbackAttrs = [] := by
  cases attrsApi with
  | success places =>
    by_cases hp : places.isEmpty <;> by_cases hs : structured.attractions_found.isEmpty <;>
      by_cases hf : fallbackAttrs.isEmpty <;>
      simp_all [attractionsPhase, List.isEmpty_iff]
  | apiError m =>
    by_cases hf : fallbackAttrs.isEmpty <;> simp_all [attractionsPhase, List.isEmpty_iff]
  | exception m =>
    by_cases hf : fallbackAttrs.isEmpty <;> simp_all [attractionsPhase, List.isEmpty_iff]

/-- When the attractions API failed and the fallback produced attractions, the
fallback source entry is recorded. -/
theorem attractionsPhase_fallback_source (city : String)
    (attrsApi : ApiOutcome (List RawPlace)) (structured : StructuredResearch)
    (fallbackAttrs : List Attraction) (hfail : attrsApi.failed = true)
    (hf : fallbackAttrs ≠ []) :
    fallbackAttractionsSource city ∈
      (attractionsPhase city attrsApi structured fallbackAttrs).2 := by
  cases attrsApi with
  | success places => simp [ApiOutcome.failed] at hfail
  | apiError m => simp [attractionsPhase, List.isEmpty_iff, hf]
  | exception m => simp [attractionsPhase, List.isEmpty_iff, hf]

/-- The hotels phase only appends to the accumulated source list. -/
theorem hotelsPhase_sources_mono (city : String) (sources : List String)
    (hotelsApi : ApiOutcome (List Hotel)) (fallbackHotels : List Hotel) (x : String)
    (hx : x ∈ sources) :
    x ∈ (hotelsPhase city sources hotelsApi fallbackHotels).2 := by
  cases hotelsApi with
  | success hs =>
    by_cases hh : hs.isEmpty <;> by_cases hf : fallbackHotels.isEmpty <;>
      simp_all [hotelsPhase]
  | apiError m =>
    by_cases hf : fallbackHotels.isEmpty <;> simp_all [hotelsPhase]
  | exception m =>
    by_cases hf : fallbackHotels.isEmpty <;> simp_all [hotelsPhase]

/-- C9 amended: for a valid (non-empty) city, the worker returns an empty
attractions list only when the oracle fallback itself returned nothing; when
the fallback yields attractions the result is non-empty, and when additionally
the attractions API failed, the `LLM Knowledge Base` source entry naming the
city is recorded.  (When both the API path and the fallback yield nothing, no
fallback or error entry is recorded — see the counterexample.) -/
theorem research_city_fallback_amended (city : String)
    (attrsApi : ApiOutcome (List RawPlace)) (structured : StructuredResearch)
    (fallbackAttrs : List Attraction) (hotelsApi : ApiOutcome (List Hotel))
    (fallbackHotels : List Hotel) (hcity : city ≠ "") :
    ((researchCity city attrsApi structured fallbackAttrs hotelsApi fallbackHotels).1 = [] →
      fallbackAttrs = []) ∧
    (fallbackAttrs ≠ [] →
      (researchCity city attrsApi structured fallbackAttrs hotelsApi fallbackHotels).1 ≠ []) ∧
    (attrsApi.failed = true → fallbackAttrs ≠ [] →
      fallbackAttractionsSource city ∈
        (researchCity city attrsApi structured fallbackAttrs hotelsApi fallbackHotels).2.2) := by
  have hre : researchCity city attrsApi structured fallbackAttrs hotelsApi fallbackHotels =
      ((attractionsPhase city attrsApi structured fallbackAttrs).1,
       (hotelsPhase city (attractionsPhase city attrsApi structured fallbackAttrs).2
          hotelsApi fallbackHotels).1,
       (hotelsPhase city (attractionsPhase city attrsApi structured fallbackAttrs).2
          hotelsApi fallbackHotels).2) := by
    rw [researchCity, if_neg hcity]
  refine ⟨?_, ?_, ?_⟩
  · intro h
    rw [hre] at h
    exact attractionsPhase_empty city attrsApi structured fallbackAttrs h
  · intro hf h
    rw [hre] at h
    exact hf (attractionsPhase_empty city attrsApi structured fallbackAttrs h)
  · intro hfail hf
    rw [hre]
    exact hotelsPhase_sources_mono city _ hotelsApi fallbackHotels _
      (attractionsPhase_fallback_source city attrsApi structured fallbackAttrs hfail hf)

/-- Witness for the amended C9: with a failing attractions API and a non-empty
fallback for Paris, the fallback source entry is present and the attractions
are non-empty. -/
theorem research_city_fallback_amended_witness :
    (fallbackAttractionsSource "Paris" ∈
      (researchCity "Paris" (ApiOutcome.apiError "OVER_QUERY_LIMIT")
        { attractions_found := [], sources_browsed := [] } [parisFallbackAttraction]
        (ApiOutcome.apiError "OVER_QUERY_LIMIT") []).2.2) ∧
    (researchCity "Paris" (ApiOutcome.apiError "OVER_QUERY_LIMIT")
        { attractions_found := [], sources_browsed := [] } [parisFallbackAttraction]
        (ApiOutcome.apiError "OVER_QUERY_LIMIT") []).1 ≠ [] :=
  ⟨(research_city_fallback_amended "Paris" (ApiOutcome.apiError "OVER_QUERY_LIMIT")
      { attractions_found := [], sources_browsed := [] } [parisFallbackAttraction]
      (ApiOutcome.apiError "OVER_QUERY_LIMIT") [] (by decide)).2.2 (by decide) (by decide),
   (research_city_fallback_amended "Paris" (ApiOutcome.apiError "OVER_QUERY_LIMIT")
      { attractions_found := [], sources_browsed := [] } [parisFallbackAttraction]
      (ApiOutcome.apiError "OVER_QUERY_LIMIT") [] (by decide)).2.1 (by decide)⟩

/-- C9 counterexample: for the valid city `Paris`, if the attractions API
errors and the oracle fallback returns nothing (and likewise for hotels), the
worker returns an empty attractions list with an entirely empty
`research_sources` — no fallback-source or error entry naming the city is
recorded, refuting the claim as stated. -/
theorem research_no_entry_counterexample :
    researchRun [parisAllFailInput] = ([], [], []) ∧
    parisAllFailInput.city = "Paris" ∧ ("Paris" : String) ≠ "" :=
  ⟨rfl, rfl, by decide⟩

/-! ## C6: finalizer day-plan bounds -/

/-- Every activity emitted by the scheduling loop is attraction-typed and
carries one of the input attractions. -/
theorem scheduleAttractions_mem (cap : Int) :
    ∀ (l : List Attraction) (cur : Int), ∀ act ∈ scheduleAttractions cap cur l,
      act.activity_type = "attraction" ∧ ∃ a ∈ l, act.attraction = some a := by
  intro l
  induction l with
  | nil => intro cur act h; exact absurd h (List.not_mem_nil act)
  | cons a rest ih =>
    intro cur act h
    simp only [scheduleAttractions] at h
    split at h <;> split at h <;>
      first
        | (simp only [List.mem_singleton] at h
           subst h
           exact ⟨rfl, a, List.mem_cons_self a rest, rfl⟩)
        | (simp only [List.mem_cons] at h
           rcases h with rfl | h
           · exact ⟨rfl, a, List.mem_cons_self a rest, rfl⟩
           · obtain ⟨hty, a2, ha2, hatt⟩ := ih _ act h
             exact ⟨hty, a2, List.mem_cons_of_mem _ ha2, hatt⟩)

/-- The scheduling loop emits at most one activity per input attraction. -/
theorem scheduleAttractions_length (cap : Int) :
    ∀ (l : List Attraction) (cur : Int),
      (scheduleAttractions cap cur l).length ≤ l.length := by
  intro l
  induction l with
  | nil => intro cur; exact Nat.le.refl
  | cons a rest ih =>
    intro cur
    simp only [scheduleAttractions]
    split <;> split <;>
      first
        | (simp only [List.length_cons, List.length_nil]; omega)
        | (simp only [List.length_cons]; exact Nat.succ_le_succ (ih _))

/-- An optional-meal block has at most one entry. -/
theorem mealAt_length (slot label : String) (meals : List FoodRec) (off : Nat) :
    (mealAt slot label meals off).length ≤ 1 := by
  cases hm : meals[off]? <;> simp [mealAt, hm]

/-- Every entry of an optional-meal block is meal-typed, sits in the block's
slot, and carries no attraction. -/
theorem mealAt_shape (slot label : String) (meals : List FoodRec) (off : Nat) :
    ∀ act ∈ mealAt slot label meals off,
      act.activity_type = "meal" ∧ act.time_slot = slot ∧ act.attraction = none := by
  intro act h
  cases hm : meals[off]? with
  | none => simp [mealAt, hm] at h
  | some m =>
    simp only [mealAt, hm, List.mem_singleton] at h
    subst h
    exact ⟨rfl, rfl, rfl⟩

/-- Meal blocks contribute nothing to the attraction count. -/
theorem filter_attraction_mealAt (slot label : String) (meals : List FoodRec) (off : Nat) :
    (mealAt slot label meals off).filter (fun a => a.activity_type == "attraction") = [] := by
  cases hm : meals[off]? <;> simp [mealAt, hm, mealActivity]

/-- Scheduled attractions contribute nothing to the meal count. -/
theorem filter_meal_sched (cap cur : Int) (l : List Attraction) :
    (scheduleAttractions cap cur l).filter (fun a => a.activity_type == "meal") = [] := by
  apply List.filter_eq_nil_iff.mpr
  intro act h
  have hty := (scheduleAttractions_mem cap l cur act h).1
  simp [hty]

/-- Scheduled attractions contribute nothing to any per-slot meal count. -/
theorem filter_mealslot_sched (cap cur : Int) (l : List Attraction) (slot : String) :
    (scheduleAttractions cap cur l).filter
      (fun a => a.activity_type == "meal" && a.time_slot == slot) = [] := by
  apply List.filter_eq_nil_iff.mpr
  intro act h
  have hty := (scheduleAttractions_mem cap l cur act h).1
  simp [hty]

/-- A meal block in one slot contributes nothing to a different slot's count. -/
theorem filter_mealslot_mealAt_other (slotY slotX label : String) (meals : List FoodRec)
    (off : Nat) (h : slotY ≠ slotX) :
    (mealAt slotY label meals off).filter
      (fun a => a.activity_type == "meal" && a.time_slot == slotX) = [] := by
  cases hm : meals[off]? <;> simp [mealAt, hm, mealActivity, h]

/-- One assembled day plan satisfies all the claimed bounds, and draws its
scheduled attractions from the supplied day chunk. -/
theorem buildDayPlan_ok (day_number day_offset : Nat) (city : String)
    (breakfasts lunches dinners : List FoodRec) (day_attractions : List Attraction)
    (daily_budget : ℚ) :
    (buildDayPlan day_number day_offset city breakfasts lunches dinners day_attractions
        daily_budget).city = city ∧
    DayPlanWithinBounds (buildDayPlan day_number day_offset city breakfasts lunches dinners
        day_attractions daily_budget) ∧
    ∀ act ∈ (buildDayPlan day_number day_offset city breakfasts lunches dinners
        day_attractions daily_budget).activities,
      ∀ a, act.attraction = some a → a ∈ day_attractions := by
  have hacts : (buildDayPlan day_number day_offset city breakfasts lunches dinners
      day_attractions daily_budget).activities =
      mealAt "08:00 - 09:00" "Breakfast: " breakfasts day_offset ++
      scheduleAttractions 12 9 ((day_attractions.take 4).take 2) ++
      mealAt "12:30 - 14:00" "Lunch: " lunches day_offset ++
      scheduleAttractions 18 14 (((day_attractions.take 4).drop 2).take 2) ++
      mealAt "19:00 - 21:00" "Dinner: " dinners day_offset := rfl
  refine ⟨rfl, ⟨?_, ?_, ?_, ?_, ?_⟩, ?_⟩
  · simp only [countAttractionActivities, hacts]
    simp only [List.filter_append, List.length_append, filter_attraction_mealAt,
      List.length_nil]
    have h1 : ((scheduleAttractions 12 9 ((day_attractions.take 4).take 2)).filter
        (fun a => a.activity_type == "attraction")).length ≤ 2 :=
      le_trans (List.length_filter_le _ _)
        (le_trans (scheduleAttractions_length 12 _ 9) (List.length_take_le _ _))
    have h2 : ((scheduleAttractions 18 14 (((day_attractions.take 4).drop 2).take 2)).filter
        (fun a => a.activity_type == "attraction")).length ≤ 2 :=
      le_trans (List.length_filter_le _ _)
        (le_trans (scheduleAttractions_length 18 _ 14) (List.length_take_le _ _))
    omega
  · simp only [countMealActivities, hacts]
    simp only [List.filter_append, List.length_append, filter_meal_sched, List.length_nil]
    have h1 := le_trans (List.length_filter_le
      (fun a => a.activity_type == "meal") _) (mealAt_length "08:00 - 09:00" "Breakfast: " breakfasts day_offset)
    have h2 := le_trans (List.length_filter_le
      (fun a => a.activity_type == "meal") _) (mealAt_length "12:30 - 14:00" "Lunch: " lunches day_offset)
    have h3 := le_trans (List.length_filter_le
      (fun a => a.activity_type == "meal") _) (mealAt_length "19:00 - 21:00" "Dinner: " dinners day_offset)
    omega
  · simp only [countMealAt, hacts]
    simp only [List.filter_append, List.length_append, filter_mealslot_sched,
      filter_mealslot_mealAt_other "12:30 - 14:00" "08:00 - 09:00" _ _ _ (by decide),
      filter_mealslot_mealAt_other "19:00 - 21:00" "08:00 - 09:00" _ _ _ (by decide),
      List.length_nil]
    have h1 := le_trans (List.length_filter_le
      (fun a => a.activity_type == "meal" && a.time_slot == "08:00 - 09:00") _)
      (mealAt_length "08:00 - 09:00" "Breakfast: " breakfasts day_offset)
    omega
  · simp only [countMealAt, hacts]
    simp only [List.filter_append, List.length_append, filter_mealslot_sched,
      filter_mealslot_mealAt_other "08:00 - 09:00" "12:30 - 14:00" _ _ _ (by decide),
      filter_mealslot_mealAt_other "19:00 - 21:00" "12:30 - 14:00" _ _ _ (by decide),
      List.length_nil]
    have h1 := le_trans (List.length_filter_le
      (fun a => a.activity_type == "meal" && a.time_slot == "12:30 - 14:00") _)
      (mealAt_length "12:30 - 14:00" "Lunch: " lunches day_offset)
    omega
  · simp only [countMealAt, hacts]
    simp only [List.filter_append, List.length_append, filter_mealslot_sched,
      filter_mealslot_mealAt_other "08:00 - 09:00" "19:00 - 21:00" _ _ _ (by decide),
      filter_mealslot_mealAt_other "12:30 - 14:00" "19:00 - 21:00" _ _ _ (by decide),
      List.length_nil]
    have h1 := le_trans (List.length_filter_le
      (fun a => a.activity_type == "meal" && a.time_slot == "19:00 - 21:00") _)
      (mealAt_length "19:00 - 21:00" "Dinner: " dinners day_offset)
    omega
  · intro act hact a hatt
    rw [hacts] at hact
    simp only [List.mem_append] at hact
    rcases hact with ((((h | h) | h) | h) | h)
    · have := (mealAt_shape _ _ _ _ act h).2.2
      rw [this] at hatt
      exact absurd hatt (by simp)
    · obtain ⟨_, a2, ha2, hatt2⟩ := scheduleAttractions_mem 12 _ 9 act h
      rw [hatt2] at hatt
      obtain rfl : a2 = a := by injection hatt
      exact List.mem_of_mem_take (List.mem_of_mem_take ha2)
    · have := (mealAt_shape _ _ _ _ act h).2.2
      rw [this] at hatt
      exact absurd hatt (by simp)
    · obtain ⟨_, a2, ha2, hatt2⟩ := scheduleAttractions_mem 18 _ 14 act h
      rw [hatt2] at hatt
      obtain rfl : a2 = a := by injection hatt
      exact List.mem_of_mem_take (List.mem_of_mem_drop (List.mem_of_mem_take ha2))
    · have := (mealAt_shape _ _ _ _ act h).2.2
      rw [this] at hatt
      exact absurd hatt (by simp)

/-- Every plan of the per-city day loop is bounded and draws from the capped
city attraction list. -/
theorem cityDaysGo_forall (city : String) (cityAttrs : List Attraction)
    (breakfasts lunches dinners : List FoodRec) (base extra : Nat) (daily_budget : ℚ) :
    ∀ (remaining day_number attraction_idx day_offset : Nat),
      ∀ plan ∈ cityDaysGo city cityAttrs breakfasts lunches dinners base extra daily_budget
          day_number attraction_idx day_offset remaining,
        plan.city = city ∧ DayPlanWithinBounds plan ∧
        ∀ act ∈ plan.activities, ∀ a, act.attraction = some a → a ∈ cityAttrs := by
  intro remaining
  induction remaining with
  | zero => intro dn ai off plan h; simp [cityDaysGo] at h
  | succ rem ih =>
    intro dn ai off plan h
    simp only [cityDaysGo] at h
    rcases List.mem_cons.mp h with rfl | h
    · obtain ⟨hcity, hb, hmem⟩ := buildDayPlan_ok dn off city breakfasts lunches dinners
        ((cityAttrs.drop ai).take (base + if off < extra then 1 else 0)) daily_budget
      refine ⟨hcity, hb, ?_⟩
      intro act hact a hatt
      exact List.mem_of_mem_drop (List.mem_of_mem_take (hmem act hact a hatt))
    · exact ih _ _ _ plan h

/-- Every plan of one city's day list is bounded and drawn from that city's
pipeline. -/
theorem cityDayPlans_forall (day_number : Nat) (cityInfo : CityAllocation)
    (attractions : List Attraction) (food : List FoodRec) (daily_budget : ℚ) :
    ∀ plan ∈ cityDayPlans day_number cityInfo attractions food daily_budget,
      plan.city = cityInfo.city ∧ DayPlanWithinBounds plan ∧
      ∀ act ∈ plan.activities, ∀ a, act.attraction = some a →
        a ∈ cityAttractionsFor cityInfo.city cityInfo.days attractions := by
  intro plan h
  simp only [cityDayPlans] at h
  exact cityDaysGo_forall _ _ _ _ _ _ _ _ _ _ _ _ plan h

/-- Every plan of the city loop belongs to one of the allocations. -/
theorem dailyPlansGo_forall (attractions : List Attraction) (food : List FoodRec)
    (daily_budget : ℚ) :
    ∀ (allocs : List CityAllocation) (day_number : Nat),
      ∀ plan ∈ dailyPlansGo attractions food daily_budget day_number allocs,
        ∃ alloc ∈ allocs, plan.city = alloc.city ∧ DayPlanWithinBounds plan ∧
          ∀ act ∈ plan.activities, ∀ a, act.attraction = some a →
            a ∈ cityAttractionsFor alloc.city alloc.days attractions := by
  intro allocs
  induction allocs with
  | nil => intro dn plan h; simp [dailyPlansGo] at h
  | cons c rest ih =>
    intro dn plan h
    simp only [dailyPlansGo] at h
    rcases List.mem_append.mp h with h | h
    · obtain ⟨hcity, hb, hmem⟩ := cityDayPlans_forall dn c attractions food daily_budget plan h
      exact ⟨c, List.mem_cons_self c rest, hcity, hb, hmem⟩
    · obtain ⟨alloc, ha, hrest⟩ := ih _ plan h
      exact ⟨alloc, List.mem_cons_of_mem _ ha, hrest⟩

/-- C6: every day plan emitted by the finalizer holds at most 4 attraction
activities and at most 3 meal activities (at most one per meal slot), and for
some allocation of the input its scheduled attractions are drawn from the
city-matched, name-deduplicated list capped at `days * 4`. -/
theorem finalize_day_plan_bounds (city_allocations : List CityAllocation)
    (attractions : List Attraction) (food : List FoodRec) (daily_budget : ℚ) :
    ∀ plan ∈ finalizeDailyPlans city_allocations attractions food daily_budget,
      DayPlanWithinBounds plan ∧
      ∃ alloc ∈ city_allocations, PlanDrawnFrom attractions alloc plan := by
  intro plan h
  simp only [finalizeDailyPlans] at h
  obtain ⟨alloc, hmemSorted, hcity, hb, hmem⟩ :=
    dailyPlansGo_forall attractions food daily_budget _ 1 plan h
  exact ⟨hb, alloc, (List.perm_insertionSort _ _).mem_iff.mp hmemSorted, hcity.symm, hmem⟩

/-- Witness for C6 on the Rome fixture: the first emitted plan is a member of
the output and satisfies the bounds. -/
theorem finalize_day_plan_bounds_witness :
    romePlan ∈ romePlans ∧ DayPlanWithinBounds romePlan := by
  have hplans : romePlans = [romePlan] := rfl
  have hmem : romePlan ∈ romePlans := by
    rw [hplans]
    exact List.mem_cons_self _ _
  exact ⟨hmem,
    (finalize_day_plan_bounds romeAllocs romeAttractions romeFood 100 romePlan hmem).1⟩

/-! ## C7: the travel-date parser -/

/-- C7: `parse_travel_dates` is a total function (all raising sub-operations
of the source are wrapped in `try/except` and modelled by `Option`), every
input containing a fuzzy marker yields `flexibility = "flexible_week"` with
both dates null, and every input matching none of the three date patterns
yields `flexibility = "specific"` with both dates null. -/
theorem parse_travel_dates_spec (s : String) :
    (containsFlexibleIndicator s = true →
      parse_travel_dates s =
        { start_date := none, end_date := none, flexibility := "flexible_week",
          description := s }) ∧
    (containsFlexibleIndicator s = false →
      searchPattern1 s.data = none → searchPattern2 s.data = none →
      searchPattern3 s.data = none →
      parse_travel_dates s =
        { start_date := none, end_date := none, flexibility := "specific",
          description := s }) := by
  constructor
  · intro hflex
    by_cases hs : s = ""
    · subst hs
      exact absurd hflex (by decide)
    · simp [parse_travel_dates, hs, hflex]
  · intro hflex h1 h2 h3
    by_cases hs : s = ""
    · subst hs
      rfl
    · simp [parse_travel_dates, hs, hflex, h1, h2, h3]

/-- Witness for C7: a fuzzy input yields the flexible-week record, and an
input matching no pattern yields the specific record with null dates. -/
theorem parse_travel_dates_spec_witness :
    parse_travel_dates "mid-January" =
      { start_date := none, end_date := none, flexibility := "flexible_week",
        description := "mid-January" } ∧
    parse_travel_dates "hello world" =
      { start_date := none, end_date := none, flexibility := "specific",
        description := "hello world" } :=
  ⟨(parse_travel_dates_spec "mid-January").1 (by decide),
   (parse_travel_dates_spec "hello world").2 (by decide) (by decide) (by decide) (by decide)⟩

end TravelPlanner
